import Mathlib

/-!
# Verification of the minitrace event-capture pipeline

Shallow embedding of `src/minitrace.h` (macros, scope-guard classes,
compile-time constants) together with spec-modelled definitions for the
intake/serializer implementation, whose `.cpp` file is not part of the
sources (§2 of the spec: "most of the real logic lives in the out-of-scope
.cpp implementation which we design here").

Time (C `double` seconds) is modelled as `ℚ`; a C `void *` appears in
several roles (null, integer id, pointer to a `double` start time,
argument payload) and is modelled as tagged unions.
-/

/-- `BUFFER_SIZE` from minitrace.h line 25: `#define BUFFER_SIZE 1000000`. -/
def BUFFER_SIZE : Nat := 1000000

/-- `MTR_MAX_ARGS` from minitrace.h line 54: `#define MTR_MAX_ARGS 1`. -/
def MTR_MAX_ARGS : Nat := 1

/-- The `mtr_arg_type` enum from minitrace.h (NONE = 0, INT = 1,
STRING_CONST = 8; the commented-out members are not modelled). -/
inductive mtr_arg_type
  | NONE
  | INT
  | STRING_CONST
  deriving DecidableEq, Repr

/-- The `void *id` parameter of the intake entry points: either an integer
id bit-pattern cast to a pointer (`0` for null), or — for the `X` phase —
a pointer to a `double` start time. -/
inductive AsyncId
  | num (n : Nat)
  | startPtr (t : ℚ)
  deriving DecidableEq

/-- The integer id carried in a record for non-`X` phases (a pointer to a
start time is never used as a correlation id). -/
def AsyncId.toNat : AsyncId → Nat
  | .num n => n
  | .startPtr _ => 0

/-- The `void *arg_value` payload, reinterpreted according to `arg_type`:
a 64-bit integer or a static string handle. -/
inductive ArgValue
  | unused
  | int (i : Int)
  | str (s : String)
  deriving DecidableEq

/-- Event record (spec §3): fixed-size, trivially copyable. -/
structure RawEvent where
  timestamp : ℚ
  duration : ℚ
  threadId : Nat
  phase : Char
  category : String
  name : String
  asyncId : Nat
  arg_type : mtr_arg_type
  arg_name : String
  arg_value : ArgValue
  deriving DecidableEq

/-- Process-wide state (spec §3): the `running` flag, the atomic counter of
reserved slots, the record buffer (in slot order; only successfully written
records appear), the flusher's low-water mark and the output byte stream. -/
structure MtrState where
  running : Bool
  count : Nat
  buffer : List RawEvent
  last_flushed : Nat
  out : String
  deriving DecidableEq

/-- Modelled from the spec: the body of `internal_mtr_raw_event_arg`, whose
implementation (.cpp) is not under src/. Per §4.1/§4.2: if `running` is
false the event is dropped and the call returns; otherwise the producer
performs an atomic fetch-and-increment to obtain slot index `i`; if
`i >= BUFFER_SIZE` the event is dropped (the counter is not decremented);
otherwise the record is written to slot `i`, timestamped with the monotonic
clock (`now`, read before the increment) and the caller's thread id.
Special case for phase `X` with a non-null id: the id is interpreted as a
pointer to a `double start_time_s` and the record stores
`timestamp = *start_time_s`, `duration = now - *start_time_s`. The
function is total and returns only the updated state: no error is surfaced
to the caller. -/
def internal_mtr_raw_event_arg (category name : String) (ph : Char) (id : AsyncId)
    (arg_type : mtr_arg_type) (arg_name : String) (arg_value : ArgValue)
    (s : MtrState) (now : ℚ) (tid : Nat) : MtrState :=
  if s.running = false then s
  else
    let i := s.count
    let s' := { s with count := i + 1 }
    if BUFFER_SIZE ≤ i then s'
    else
      let e : RawEvent :=
        match ph, id with
        | 'X', .startPtr start_time_s =>
            { timestamp := start_time_s, duration := now - start_time_s,
              threadId := tid, phase := ph, category := category, name := name,
              asyncId := 0, arg_type := arg_type, arg_name := arg_name,
              arg_value := arg_value }
        | _, _ =>
            { timestamp := now, duration := 0,
              threadId := tid, phase := ph, category := category, name := name,
              asyncId := id.toNat, arg_type := arg_type, arg_name := arg_name,
              arg_value := arg_value }
      { s' with buffer := s'.buffer ++ [e] }

/-- Modelled from the spec: `internal_mtr_raw_event` (declared with exactly
four event parameters in minitrace.h line 57) appends a no-argument record
through the same path as `internal_mtr_raw_event_arg`. -/
def internal_mtr_raw_event (category name : String) (ph : Char) (id : AsyncId)
    (s : MtrState) (now : ℚ) (tid : Nat) : MtrState :=
  internal_mtr_raw_event_arg category name ph id .NONE "" .unused s now tid

/-- `MTRScopedTrace` (minitrace.h lines 115-129): the C++ scope guard that
stores `category_`, `name_` and `start_time_`. -/
structure MTRScopedTrace where
  category_ : String
  name_ : String
  start_time_ : ℚ
  deriving DecidableEq

/-- The `MTRScopedTrace` constructor (lines 117-120): stores the two
strings and captures `start_time_ = mtr_time_s()`; the clock reading at
construction is passed in as `mtr_time_s`. -/
def MTRScopedTrace.construct (category name : String) (mtr_time_s : ℚ) :
    MTRScopedTrace :=
  { category_ := category, name_ := name, start_time_ := mtr_time_s }

/-- The `MTRScopedTrace` destructor (lines 121-123):
`internal_mtr_raw_event(category_, name_, 'X', &start_time_)` — a single
intake call passing the address of the captured start time. -/
def MTRScopedTrace.destruct (g : MTRScopedTrace) (s : MtrState) (now : ℚ)
    (tid : Nat) : MtrState :=
  internal_mtr_raw_event g.category_ g.name_ 'X' (.startPtr g.start_time_) s now tid

/-- `MTRScopedTraceArg` (minitrace.h lines 131-144): stores `category_` and
`name_` only; no start time field. -/
structure MTRScopedTraceArg where
  category_ : String
  name_ : String
  deriving DecidableEq

/-- The `MTRScopedTraceArg` constructor (lines 133-136): immediately emits
`internal_mtr_raw_event_arg(category, name, 'B', 0, arg_type, arg_name,
arg_value)` and stores the two strings. -/
def MTRScopedTraceArg.construct (category name : String)
    (arg_type : mtr_arg_type) (arg_name : String) (arg_value : ArgValue)
    (s : MtrState) (now : ℚ) (tid : Nat) : MTRScopedTraceArg × MtrState :=
  ({ category_ := category, name_ := name },
   internal_mtr_raw_event_arg category name 'B' (.num 0) arg_type arg_name
     arg_value s now tid)

/-- The `MTRScopedTraceArg` destructor (lines 137-139):
`internal_mtr_raw_event(category_, name_, 'E', 0)`. -/
def MTRScopedTraceArg.destruct (g : MTRScopedTraceArg) (s : MtrState)
    (now : ℚ) (tid : Nat) : MtrState :=
  internal_mtr_raw_event g.category_ g.name_ 'E' (.num 0) s now tid

/-!
## The macro layer

Each function-like instrumentation macro of minitrace.h expands to a call
of one of the two intake entry points. A `MacroCall` records, token for
token, which entry point the replacement text names and the argument list
it is applied to; `runCall` then gives the call its C semantics, yielding
`none` when the argument list does not fit the callee's declared
parameter list (in C such a call does not compile).
-/

/-- The C function named in a macro's replacement text. -/
inductive Callee
  | raw_event
  | raw_event_arg
  deriving DecidableEq, Repr

/-- One C argument expression as written in a macro's replacement text. -/
inductive CVal
  | str (s : String)
  | ch (c : Char)
  | null
  | idNum (n : Nat)
  | intv (i : Int)
  | argTy (t : mtr_arg_type)
  | ptrDouble (t : ℚ)
  deriving DecidableEq

/-- A macro expansion: the callee and its positional arguments. -/
structure MacroCall where
  callee : Callee
  args : List CVal
  deriving DecidableEq

/-- `#define MTR_BEGIN(c, n) internal_mtr_raw_event(c, n, 'B', 0)` (line 63). -/
def MTR_BEGIN (c n : String) : MacroCall :=
  ⟨.raw_event, [.str c, .str n, .ch 'B', .null]⟩

/-- `#define MTR_END(c, n) internal_mtr_raw_event(c, n, 'E', 0)` (line 64). -/
def MTR_END (c n : String) : MacroCall :=
  ⟨.raw_event, [.str c, .str n, .ch 'E', .null]⟩

/-- `#define MTR_START(c, n, id) internal_mtr_raw_event(c, n, 'S', (void *)(id))` (line 67). -/
def MTR_START (c n : String) (id : Nat) : MacroCall :=
  ⟨.raw_event, [.str c, .str n, .ch 'S', .idNum id]⟩

/-- `#define MTR_STEP(c, n, id, step) internal_mtr_raw_event_arg(c, n, 'T',
(void *)(id), MTR_ARG_TYPE_STRING_CONST, "step", (void *)(step))` (line 68). -/
def MTR_STEP (c n : String) (id : Nat) (step : String) : MacroCall :=
  ⟨.raw_event_arg, [.str c, .str n, .ch 'T', .idNum id,
    .argTy .STRING_CONST, .str "step", .str step]⟩

/-- `#define MTR_FINISH(c, n, id) internal_mtr_raw_event(c, n, 'F', (void *)(id))` (line 69). -/
def MTR_FINISH (c n : String) (id : Nat) : MacroCall :=
  ⟨.raw_event, [.str c, .str n, .ch 'F', .idNum id]⟩

/-- `#define MTR_BEGIN_C(c, n, aname, astrval) internal_mtr_raw_event_arg(c,
n, 'B', 0, MTR_ARG_TYPE_STRING_CONST, aname, (void *)(astrval))` (line 77). -/
def MTR_BEGIN_C (c n aname astrval : String) : MacroCall :=
  ⟨.raw_event_arg, [.str c, .str n, .ch 'B', .null,
    .argTy .STRING_CONST, .str aname, .str astrval]⟩

/-- `#define MTR_END_C(c, n, aname, astrval) internal_mtr_raw_event_arg(c,
n, 'E', 0, MTR_ARG_TYPE_STRING_CONST, aname, (void *)(astrval))` (line 78). -/
def MTR_END_C (c n aname astrval : String) : MacroCall :=
  ⟨.raw_event_arg, [.str c, .str n, .ch 'E', .null,
    .argTy .STRING_CONST, .str aname, .str astrval]⟩

/-- `#define MTR_BEGIN_I(c, n, aname, aintval) internal_mtr_raw_event_arg(c,
n, 'B', 0, MTR_ARG_TYPE_INT, aname, (void*)(intptr_t)(aintval))` (line 81). -/
def MTR_BEGIN_I (c n aname : String) (aintval : Int) : MacroCall :=
  ⟨.raw_event_arg, [.str c, .str n, .ch 'B', .null,
    .argTy .INT, .str aname, .intv aintval]⟩

/-- `#define MTR_END_I(c, n, aname, aintval) internal_mtr_raw_event_arg(c,
n, 'E', 0, MTR_ARG_TYPE_INT, aname, (void*)(intptr_t)(aintval))` (line 82). -/
def MTR_END_I (c n aname : String) (aintval : Int) : MacroCall :=
  ⟨.raw_event_arg, [.str c, .str n, .ch 'E', .null,
    .argTy .INT, .str aname, .intv aintval]⟩

/-- `#define MTR_INSTANT(c, n) internal_mtr_raw_event(c, n, 'I', 0)` (line 85). -/
def MTR_INSTANT (c n : String) : MacroCall :=
  ⟨.raw_event, [.str c, .str n, .ch 'I', .null]⟩

/-- `#define MTR_INSTANT_C(c, n, aname, astrval) internal_mtr_raw_event(c,
n, 'I', 0, MTR_ARG_TYPE_STRING_CONST, aname, (void *)(astrval))` (line 86):
the replacement text names `internal_mtr_raw_event` — the four-parameter
entry point — applied to seven arguments. -/
def MTR_INSTANT_C (c n aname astrval : String) : MacroCall :=
  ⟨.raw_event, [.str c, .str n, .ch 'I', .null,
    .argTy .STRING_CONST, .str aname, .str astrval]⟩

/-- `#define MTR_INSTANT_I(c, n, aname, aintval) internal_mtr_raw_event(c,
n, 'I', 0, MTR_ARG_TYPE_INT, aname, (void *)(aintval))` (line 87): again
`internal_mtr_raw_event` applied to seven arguments. -/
def MTR_INSTANT_I (c n aname : String) (aintval : Int) : MacroCall :=
  ⟨.raw_event, [.str c, .str n, .ch 'I', .null,
    .argTy .INT, .str aname, .intv aintval]⟩

/-- `#define MTR_COUNTER(c, n, val) internal_mtr_raw_event_arg(c, n, 'C', 0,
MTR_ARG_TYPE_INT, n, (void *)(intptr_t)(val))` (line 90): note the event
name `n` is also passed as the argument name. -/
def MTR_COUNTER (c n : String) (val : Int) : MacroCall :=
  ⟨.raw_event_arg, [.str c, .str n, .ch 'C', .null,
    .argTy .INT, .str n, .intv val]⟩

/-- `#define MTR_META_PROCESS_NAME(n) internal_mtr_raw_event_arg("",
"process_name", 'M', 0, MTR_ARG_TYPE_STRING_CONST, "name", (void *)(n))`
(line 95). -/
def MTR_META_PROCESS_NAME (n : String) : MacroCall :=
  ⟨.raw_event_arg, [.str "", .str "process_name", .ch 'M', .null,
    .argTy .STRING_CONST, .str "name", .str n]⟩

/-- `#define MTR_META_THREAD_NAME(n) internal_mtr_raw_event_arg("",
"thread_name", 'M', 0, MTR_ARG_TYPE_STRING_CONST, "name", (void *)(n))`
(line 97). -/
def MTR_META_THREAD_NAME (n : String) : MacroCall :=
  ⟨.raw_event_arg, [.str "", .str "thread_name", .ch 'M', .null,
    .argTy .STRING_CONST, .str "name", .str n]⟩

/-- Reads a C argument expression in an `id` (`void *`) position. -/
def decodeId : CVal → Option AsyncId
  | .null => some (.num 0)
  | .idNum n => some (.num n)
  | .ptrDouble t => some (.startPtr t)
  | _ => none

/-- Reads a C argument expression in an `arg_value` (`void *`) position. -/
def decodeArgValue : CVal → Option ArgValue
  | .str s => some (.str s)
  | .intv i => some (.int i)
  | _ => none

/-- C call semantics of a macro expansion: `internal_mtr_raw_event` is
declared with exactly four parameters and `internal_mtr_raw_event_arg`
with exactly seven (minitrace.h lines 57-58), so a call supplying any
other argument list has no semantics (`none`: in C it is rejected at
compile time). -/
def runCall (mc : MacroCall) (s : MtrState) (now : ℚ) (tid : Nat) :
    Option MtrState :=
  match mc.callee, mc.args with
  | .raw_event, [.str c, .str n, .ch ph, idv] =>
      (decodeId idv).map fun id => internal_mtr_raw_event c n ph id s now tid
  | .raw_event_arg, [.str c, .str n, .ch ph, idv, .argTy t, .str an, av] =>
      (decodeId idv).bind fun id =>
        (decodeArgValue av).map fun v =>
          internal_mtr_raw_event_arg c n ph id t an v s now tid
  | _, _ => none

/-!
## The disabled layer (`MTR_DISABLED`, minitrace.h lines 100-109)

Under `#define MTR_DISABLED` the header defines six macros whose
replacement text is empty. `disabledCalls` maps a macro name to the list
of intake calls its disabled replacement performs (`some []` when the
macro is defined and performs none, `none` when the disabled section does
not define it); the two arity functions record the parameter lists of the
two definitions of each macro.
-/

/-- The instrumentation macros named in the disabled section or their
enabled counterparts. -/
inductive MacroName
  | mBEGIN
  | mEND
  | mSCOPE
  | mSTART
  | mSTEP
  | mFINISH
  | mINSTANT
  deriving DecidableEq, Repr

/-- Parameter count of each macro's enabled definition
(minitrace.h lines 63-69, 85). -/
def enabledArity : MacroName → Nat
  | .mBEGIN => 2
  | .mEND => 2
  | .mSCOPE => 2
  | .mSTART => 3
  | .mSTEP => 4
  | .mFINISH => 3
  | .mINSTANT => 2

/-- Parameter count of each macro's disabled definition (minitrace.h lines
102-107): `MTR_BEGIN(c, n)`, `MTR_END(c, n)`, `MTR_SCOPE(c, n)`,
`MTR_START(c, n)`, `MTR_FINISH(c, n)`, `MTR_INSTANT(c, n)`; `MTR_STEP` has
no disabled definition. -/
def disabledArity : MacroName → Option Nat
  | .mBEGIN => some 2
  | .mEND => some 2
  | .mSCOPE => some 2
  | .mSTART => some 2
  | .mSTEP => none
  | .mFINISH => some 2
  | .mINSTANT => some 2

/-- Intake calls performed by each macro's disabled replacement text: the
six defined macros all expand to nothing, so each performs no call. -/
def disabledCalls : MacroName → Option (List MacroCall)
  | .mBEGIN => some []
  | .mEND => some []
  | .mSCOPE => some []
  | .mSTART => some []
  | .mSTEP => none
  | .mFINISH => some []
  | .mINSTANT => some []

/-!
## Serializer (spec-modelled, §4.4)

The .cpp serializer is not under src/; it is modelled from the spec's
per-event JSON shape. An event serializes to a JSON object given by
`eventFields`; rendering an object to bytes is `serializeEvent`.
-/

/-- A JSON scalar appearing in an event object. -/
inductive JsonPrim
  | int (i : Int)
  | num (q : ℚ)
  | str (s : String)
  deriving DecidableEq

/-- A JSON value appearing in an event object: a scalar, or the one-level
`args` object (`MTR_MAX_ARGS = 1`, so `args` holds a single scalar). -/
inductive JsonVal
  | prim (p : JsonPrim)
  | obj (fields : List (String × JsonPrim))
  deriving DecidableEq

/-- Lowercase hexadecimal digit. -/
def hexDigit (n : Nat) : Char :=
  if n < 10 then Char.ofNat (48 + n) else Char.ofNat (87 + n)

/-- The low `k` hexadecimal digits of `n`, most significant first. -/
def hexDigitsAux : Nat → Nat → List Char
  | 0, _ => []
  | k + 1, n => hexDigitsAux k (n / 16) ++ [hexDigit (n % 16)]

/-- Modelled from the spec: the async id is printed as hexadecimal
`"0x%08x"` — the value truncated to 32 bits, in lowercase hex, zero-padded
to eight digits (this function yields the digits after the `0x`). -/
def hex08 (n : Nat) : String :=
  ⟨hexDigitsAux 8 (n % 2 ^ 32)⟩

/-- Modelled from the spec: the JSON value stored under the argument's key,
selected by `arg_type`: `INT` renders a numeric literal, `STRING_CONST` a
JSON string. The remaining combinations reinterpret a `void *` bit
pattern and are never produced by the macro layer. -/
def argPrim : mtr_arg_type → ArgValue → JsonPrim
  | .INT, .int i => .int i
  | .STRING_CONST, .str s => .str s
  | _, _ => .int 0

/-- Modelled from the spec (§4.4, per-event JSON shape): always `cat`,
`pid: 0`, `tid`, `ph`, `name`; `ts` in microseconds except for phase `M`;
`dur` in microseconds for phase `X`; `id` as hexadecimal `"0x%08x"` for
phases `S`, `T`, `F`; an `args` object with the single key `arg_name` when
`arg_type != NONE`. -/
def eventFields (e : RawEvent) : List (String × JsonVal) :=
  [("cat", .prim (.str e.category)), ("pid", .prim (.int 0)),
   ("tid", .prim (.int e.threadId))]
  ++ (if e.phase = 'M' then [] else [("ts", .prim (.num (e.timestamp * 1000000)))])
  ++ [("ph", .prim (.str (String.singleton e.phase))),
      ("name", .prim (.str e.name))]
  ++ (if e.phase = 'X' then [("dur", .prim (.num (e.duration * 1000000)))] else [])
  ++ (if e.phase = 'S' ∨ e.phase = 'T' ∨ e.phase = 'F'
      then [("id", .prim (.str ("0x" ++ hex08 e.asyncId)))] else [])
  ++ (if e.arg_type = .NONE then []
      else [("args", .obj [(e.arg_name, argPrim e.arg_type e.arg_value)])])

/-- Standard JSON escaping of one character: escape `"`, `\` and control
characters at or below 0x1F. -/
def jsonEscapeChar (c : Char) : String :=
  if c = '"' then "\\\""
  else if c = '\\' then "\\\\"
  else if c.toNat ≤ 31 then
    "\\u00" ++ ⟨[hexDigit (c.toNat / 16), hexDigit (c.toNat % 16)]⟩
  else String.singleton c

/-- A JSON string literal. -/
def jsonQuote (s : String) : String :=
  "\"" ++ String.join (s.data.map jsonEscapeChar) ++ "\""

/-- Renders a JSON scalar. -/
def renderPrim : JsonPrim → String
  | .int i => toString i
  | .num q => toString q
  | .str s => jsonQuote s

/-- Renders one `key: value` member with a scalar value. -/
def renderPrimField (f : String × JsonPrim) : String :=
  jsonQuote f.1 ++ ":" ++ renderPrim f.2

/-- Renders a JSON value. -/
def renderVal : JsonVal → String
  | .prim p => renderPrim p
  | .obj fs => "\x7b" ++ String.intercalate "," (fs.map renderPrimField) ++ "\x7d"

/-- Renders one `key: value` member of the event object. -/
def renderField (f : String × JsonVal) : String :=
  jsonQuote f.1 ++ ":" ++ renderVal f.2

/-- Modelled from the spec: one event rendered as a JSON object. -/
def serializeEvent (e : RawEvent) : String :=
  "\x7b" ++ String.intercalate "," ((eventFields e).map renderField) ++ "\x7d"

/-- Modelled from the spec (§4.4, §4.5): `mtr_flush` consumes all records
with indices in `[last_flushed, committed)` — every record present in the
buffer and not yet drained — appends them to the output stream as a
comma-separated sequence of JSON objects, and advances the low-water
mark. Safe to call repeatedly. -/
def mtr_flush (s : MtrState) : MtrState :=
  let newly := s.buffer.drop s.last_flushed
  { s with
    out := s.out ++ String.join (newly.map fun e => serializeEvent e ++ ",\n"),
    last_flushed := s.buffer.length }

/-!
## Theorems
-/

/-- A freshly armed state: `running`, nothing reserved, nothing flushed. -/
def initState : MtrState :=
  { running := true, count := 0, buffer := [], last_flushed := 0, out := "" }

/-- A state whose committed counter has reached capacity. -/
def fullState : MtrState :=
  { running := true, count := BUFFER_SIZE, buffer := [], last_flushed := 0,
    out := "" }

/-- C8: the buffer capacity constant `BUFFER_SIZE` equals 1,000,000 and
the maximum number of arguments per event `MTR_MAX_ARGS` is 1. -/
theorem compile_time_constants : BUFFER_SIZE = 1000000 ∧ MTR_MAX_ARGS = 1 :=
  ⟨rfl, rfl⟩

/-- C1: `MTRScopedTrace` captures `start_time_` at construction by reading
the clock; its destructor performs exactly one intake call with phase `X`
passing the captured start time, and the resulting record has
`timestamp = start`, `duration = end - start`, with `duration ≥ 0`
whenever the clock is monotone (`start ≤ end`). -/
theorem MTRScopedTrace_emits_one_X_event (c n : String) (t0 t1 : ℚ)
    (s : MtrState) (tid : Nat) (hmono : t0 ≤ t1) (hrun : s.running = true)
    (hcap : s.count < BUFFER_SIZE) :
    ∃ e : RawEvent,
      (MTRScopedTrace.construct c n t0).destruct s t1 tid =
        { s with
          count := s.count + 1
          buffer := s.buffer ++ [e] } ∧
      e.phase = 'X' ∧ e.timestamp = t0 ∧ e.duration = t1 - t0 ∧
      0 ≤ e.duration := by
  refine ⟨{ timestamp := t0, duration := t1 - t0, threadId := tid, phase := 'X',
            category := c, name := n, asyncId := 0, arg_type := .NONE,
            arg_name := "", arg_value := .unused }, ?_, rfl, rfl, rfl, ?_⟩
  · unfold MTRScopedTrace.destruct MTRScopedTrace.construct
      internal_mtr_raw_event internal_mtr_raw_event_arg
    simp [hrun, Nat.not_le.mpr hcap]
  · simpa using hmono

/-- Witness for C1 at concrete inputs. -/
theorem MTRScopedTrace_emits_one_X_event_witness :
    ∃ e : RawEvent,
      (MTRScopedTrace.construct "cat" "work" 2).destruct initState 5 0 =
        { initState with
          count := initState.count + 1
          buffer := initState.buffer ++ [e] } ∧
      e.phase = 'X' ∧ e.timestamp = 2 ∧ e.duration = 5 - 2 ∧
      0 ≤ e.duration :=
  MTRScopedTrace_emits_one_X_event "cat" "work" 2 5 initState 0
    (by norm_num) rfl (by norm_num [initState, BUFFER_SIZE])

/-- C3: when `running` is false or the reserved slot index `count` is at or
past `BUFFER_SIZE`, both intake entry points drop the event: the record
buffer is unchanged, and the committed counter never decreases (it
saturates logically and, being a `Nat` that is only incremented, never
wraps). Both functions are total and return only the new state, so no
error is surfaced to the caller. -/
theorem intake_drops_silently (c n : String) (ph : Char) (id : AsyncId)
    (t : mtr_arg_type) (an : String) (av : ArgValue) (s : MtrState)
    (now : ℚ) (tid : Nat)
    (h : s.running = false ∨ BUFFER_SIZE ≤ s.count) :
    (internal_mtr_raw_event c n ph id s now tid).buffer = s.buffer ∧
    s.count ≤ (internal_mtr_raw_event c n ph id s now tid).count ∧
    (internal_mtr_raw_event_arg c n ph id t an av s now tid).buffer = s.buffer ∧
    s.count ≤ (internal_mtr_raw_event_arg c n ph id t an av s now tid).count := by
  unfold internal_mtr_raw_event internal_mtr_raw_event_arg
  rcases h with h | h
  · simp [h]
  · rcases hr : s.running with _ | _
    · simp
    · simp [hr, h]

/-- Witness for C3: a full buffer while running. -/
theorem intake_drops_silently_witness :
    (internal_mtr_raw_event "c" "n" 'B' (.num 0) fullState 0 0).buffer =
      fullState.buffer ∧
    fullState.count ≤
      (internal_mtr_raw_event "c" "n" 'B' (.num 0) fullState 0 0).count ∧
    (internal_mtr_raw_event_arg "c" "n" 'B' (.num 0) .INT "a" (.int 1)
        fullState 0 0).buffer = fullState.buffer ∧
    fullState.count ≤
      (internal_mtr_raw_event_arg "c" "n" 'B' (.num 0) .INT "a" (.int 1)
        fullState 0 0).count :=
  intake_drops_silently "c" "n" 'B' (.num 0) .INT "a" (.int 1) fullState 0 0
    (Or.inr le_rfl)

/-- The full lifetime of a `MTRScopedTraceArg` guard (the guard declared
by `MTR_SCOPE_C` and `MTR_SCOPE_I`): construction at clock reading `t0`,
destruction at clock reading `t1`. -/
def MTRScopedTraceArg.lifecycle (category name : String)
    (arg_type : mtr_arg_type) (arg_name : String) (arg_value : ArgValue)
    (s : MtrState) (t0 t1 : ℚ) (tid : Nat) : MtrState :=
  let gs := MTRScopedTraceArg.construct category name arg_type arg_name
    arg_value s t0 tid
  gs.1.destruct gs.2 t1 tid

/-- C2 counterexample: the guard declared by `MTR_SCOPE_C` / `MTR_SCOPE_I`
(`MTRScopedTraceArg`) does not emit one `X` record — over its lifetime it
appends two records, a `B`/`E` pair. -/
theorem MTRScopedTraceArg_BE_pair_not_X :
    ((MTRScopedTraceArg.lifecycle "c" "n" .STRING_CONST "a" (.str "v")
        initState 2 5 0).buffer.map RawEvent.phase) = ['B', 'E'] := by
  decide

/-- C2 amended: `MTR_SCOPE`'s guard `MTRScopedTrace` captures the start
time at construction and emits exactly one `X` record at destruction
carrying the measured duration; `MTR_SCOPE_C` and `MTR_SCOPE_I` use
`MTRScopedTraceArg`, which instead emits a `B` record carrying the named
argument at construction and an `E` record at destruction — a separate
`B`/`E` pair of two records. -/
theorem scope_guard_semantics (c n aname : String) (t : mtr_arg_type)
    (av : ArgValue) (t0 t1 : ℚ) (s sa : MtrState) (tid : Nat)
    (hrun : s.running = true) (hcap : s.count < BUFFER_SIZE)
    (harun : sa.running = true) (hacap : sa.count + 1 < BUFFER_SIZE) :
    (∃ e : RawEvent,
      (MTRScopedTrace.construct c n t0).destruct s t1 tid =
        { s with
          count := s.count + 1
          buffer := s.buffer ++ [e] } ∧
      e.phase = 'X' ∧ e.timestamp = t0 ∧ e.duration = t1 - t0) ∧
    (∃ e1 e2 : RawEvent,
      MTRScopedTraceArg.lifecycle c n t aname av sa t0 t1 tid =
        { sa with
          count := sa.count + 1 + 1
          buffer := sa.buffer ++ [e1, e2] } ∧
      e1.phase = 'B' ∧ e1.arg_type = t ∧ e1.arg_name = aname ∧
      e1.arg_value = av ∧ e2.phase = 'E') := by
  constructor
  · refine ⟨{ timestamp := t0, duration := t1 - t0, threadId := tid,
              phase := 'X', category := c, name := n, asyncId := 0,
              arg_type := .NONE, arg_name := "", arg_value := .unused },
      ?_, rfl, rfl, rfl⟩
    unfold MTRScopedTrace.destruct MTRScopedTrace.construct
      internal_mtr_raw_event internal_mtr_raw_event_arg
    simp [hrun, Nat.not_le.mpr hcap]
  · have h1 : ¬ BUFFER_SIZE ≤ sa.count := by omega
    have h2 : ¬ BUFFER_SIZE ≤ sa.count + 1 := by omega
    refine ⟨{ timestamp := t0, duration := 0, threadId := tid, phase := 'B',
              category := c, name := n, asyncId := 0, arg_type := t,
              arg_name := aname, arg_value := av },
            { timestamp := t1, duration := 0, threadId := tid, phase := 'E',
              category := c, name := n, asyncId := 0, arg_type := .NONE,
              arg_name := "", arg_value := .unused },
      ?_, rfl, rfl, rfl, rfl, rfl⟩
    unfold MTRScopedTraceArg.lifecycle MTRScopedTraceArg.construct
      MTRScopedTraceArg.destruct internal_mtr_raw_event
      internal_mtr_raw_event_arg
    simp [harun, h1, h2, AsyncId.toNat]

/-- Witness for the amended C2 at concrete inputs. -/
theorem scope_guard_semantics_witness :
    (∃ e : RawEvent,
      (MTRScopedTrace.construct "c" "n" 2).destruct initState 5 0 =
        { initState with
          count := initState.count + 1
          buffer := initState.buffer ++ [e] } ∧
      e.phase = 'X' ∧ e.timestamp = 2 ∧ e.duration = 5 - 2) ∧
    (∃ e1 e2 : RawEvent,
      MTRScopedTraceArg.lifecycle "c" "n" .INT "a" (.int 7) initState 2 5 0 =
        { initState with
          count := initState.count + 1 + 1
          buffer := initState.buffer ++ [e1, e2] } ∧
      e1.phase = 'B' ∧ e1.arg_type = .INT ∧ e1.arg_name = "a" ∧
      e1.arg_value = .int 7 ∧ e2.phase = 'E') :=
  scope_guard_semantics "c" "n" "a" .INT (.int 7) 2 5 initState initState 0
    rfl (by norm_num [initState, BUFFER_SIZE]) rfl
    (by norm_num [initState, BUFFER_SIZE])

/-- C9: `mtr_flush` is safe to call repeatedly — a second flush with no
intervening intake appends no further bytes to the output stream. -/
theorem flush_flush_appends_nothing (s : MtrState) :
    (mtr_flush (mtr_flush s)).out = (mtr_flush s).out := by
  simp [mtr_flush]
  rw [show String.join [] = "" from rfl, String.append_empty]

/-- C4 (code evaluation at the failing inputs): `MTR_INSTANT_C` and
`MTR_INSTANT_I` name `internal_mtr_raw_event` — the entry point declared
with exactly four parameters — in their replacement text and apply it to
seven arguments, so the call does not match either entry point's
declaration and has no semantics; the claim's stated expansion to
`internal_mtr_raw_event_arg` is what every other argument-carrying macro
(here `MTR_BEGIN_C`, `MTR_COUNTER` as samples) does. -/
theorem MTR_INSTANT_arg_macros_wrong_callee :
    (MTR_INSTANT_C "c" "n" "a" "v").callee = Callee.raw_event ∧
    (MTR_INSTANT_C "c" "n" "a" "v").args.length = 7 ∧
    runCall (MTR_INSTANT_C "c" "n" "a" "v") initState 0 0 = none ∧
    (MTR_INSTANT_I "c" "n" "a" 1).callee = Callee.raw_event ∧
    (MTR_INSTANT_I "c" "n" "a" 1).args.length = 7 ∧
    runCall (MTR_INSTANT_I "c" "n" "a" 1) initState 0 0 = none ∧
    (MTR_BEGIN_C "c" "n" "a" "v").callee = Callee.raw_event_arg ∧
    (MTR_BEGIN_C "c" "n" "a" "v").args.length = 7 ∧
    (MTR_COUNTER "c" "n" 1).callee = Callee.raw_event_arg ∧
    (MTR_INSTANT "c" "n").callee = Callee.raw_event ∧
    (MTR_INSTANT "c" "n").args.length = 4 :=
  ⟨rfl, rfl, rfl, rfl, rfl, rfl, rfl, rfl, rfl, rfl, rfl⟩

/-- C10 (code evaluation at the failing inputs): under `MTR_DISABLED` all
six defined macros expand to nothing (no intake call), but the disabled
`MTR_START` and `MTR_FINISH` accept two parameters while their enabled
counterparts accept three, so a program using them does not compile
unchanged; the other four arities match. -/
theorem disabled_macro_arity_mismatch :
    disabledCalls .mSTART = some [] ∧ disabledCalls .mFINISH = some [] ∧
    disabledArity .mSTART = some 2 ∧ enabledArity .mSTART = 3 ∧
    disabledArity .mFINISH = some 2 ∧ enabledArity .mFINISH = 3 ∧
    disabledCalls .mBEGIN = some [] ∧
    disabledArity .mBEGIN = some (enabledArity .mBEGIN) ∧
    disabledCalls .mEND = some [] ∧
    disabledArity .mEND = some (enabledArity .mEND) ∧
    disabledCalls .mSCOPE = some [] ∧
    disabledArity .mSCOPE = some (enabledArity .mSCOPE) ∧
    disabledCalls .mINSTANT = some [] ∧
    disabledArity .mINSTANT = some (enabledArity .mINSTANT) := by
  decide

/-- C5: `MTR_COUNTER(c, n, val)` is one `raw_event_arg` call appending
exactly one record with phase `C`, `arg_type = INT`, `arg_name = n` and
`arg_value = val`; its serialized form carries `"ph":"C"` and an `args`
object with the single key `n` mapped to the integer `val`. -/
theorem MTR_COUNTER_semantics (c n : String) (val : Int) (s : MtrState)
    (now : ℚ) (tid : Nat) (hrun : s.running = true)
    (hcap : s.count < BUFFER_SIZE) :
    ∃ e : RawEvent,
      runCall (MTR_COUNTER c n val) s now tid =
        some { s with
               count := s.count + 1
               buffer := s.buffer ++ [e] } ∧
      e.phase = 'C' ∧ e.arg_type = .INT ∧ e.arg_name = n ∧
      e.arg_value = .int val ∧
      ("ph", .prim (.str "C")) ∈ eventFields e ∧
      ("args", .obj [(n, .int val)]) ∈ eventFields e := by
  refine ⟨{ timestamp := now, duration := 0, threadId := tid, phase := 'C',
            category := c, name := n, asyncId := 0, arg_type := .INT,
            arg_name := n, arg_value := .int val },
    ?_, rfl, rfl, rfl, rfl, ?_, ?_⟩
  · simp [runCall, MTR_COUNTER, decodeId, decodeArgValue,
      internal_mtr_raw_event_arg, hrun, Nat.not_le.mpr hcap, AsyncId.toNat]
  · simp [eventFields]
    rfl
  · simp [eventFields, argPrim]

/-- Witness for C5 at concrete inputs (the spec's counter scenario). -/
theorem MTR_COUNTER_semantics_witness :
    ∃ e : RawEvent,
      runCall (MTR_COUNTER "mem" "heap" 42) initState 1 0 =
        some { initState with
               count := initState.count + 1
               buffer := initState.buffer ++ [e] } ∧
      e.phase = 'C' ∧ e.arg_type = .INT ∧ e.arg_name = "heap" ∧
      e.arg_value = .int 42 ∧
      ("ph", .prim (.str "C")) ∈ eventFields e ∧
      ("args", .obj [("heap", .int 42)]) ∈ eventFields e :=
  MTR_COUNTER_semantics "mem" "heap" 42 initState 1 0 rfl
    (by norm_num [initState, BUFFER_SIZE])

/-- C6: an async triple emitted through `MTR_START` / `MTR_STEP` /
`MTR_FINISH` with one caller-chosen id appends three records with phases
`S`, `T`, `F`, all carrying that `async_id`; each serialized event prints
the id as hexadecimal `"0x%08x"`, and the `T` record carries a
`STRING_CONST` argument with key `"step"` and the supplied step string. -/
theorem async_triple_semantics (c n step : String) (id : Nat)
    (s : MtrState) (t1 t2 t3 : ℚ) (tid : Nat) (hrun : s.running = true)
    (hcap : s.count + 2 < BUFFER_SIZE) :
    ∃ e1 e2 e3 : RawEvent,
      (runCall (MTR_START c n id) s t1 tid).bind
        (fun s1 => (runCall (MTR_STEP c n id step) s1 t2 tid).bind
          (fun s2 => runCall (MTR_FINISH c n id) s2 t3 tid)) =
        some { s with
               count := s.count + 1 + 1 + 1
               buffer := s.buffer ++ [e1, e2, e3] } ∧
      e1.phase = 'S' ∧ e2.phase = 'T' ∧ e3.phase = 'F' ∧
      e1.asyncId = id ∧ e2.asyncId = id ∧ e3.asyncId = id ∧
      ("id", .prim (.str ("0x" ++ hex08 id))) ∈ eventFields e1 ∧
      ("id", .prim (.str ("0x" ++ hex08 id))) ∈ eventFields e2 ∧
      ("id", .prim (.str ("0x" ++ hex08 id))) ∈ eventFields e3 ∧
      e2.arg_type = .STRING_CONST ∧ e2.arg_name = "step" ∧
      e2.arg_value = .str step ∧
      ("args", .obj [("step", .str step)]) ∈ eventFields e2 := by
  have h1 : ¬ BUFFER_SIZE ≤ s.count := by omega
  have h2 : ¬ BUFFER_SIZE ≤ s.count + 1 := by omega
  have h3 : ¬ BUFFER_SIZE ≤ s.count + 1 + 1 := by omega
  refine ⟨{ timestamp := t1, duration := 0, threadId := tid, phase := 'S',
            category := c, name := n, asyncId := id, arg_type := .NONE,
            arg_name := "", arg_value := .unused },
          { timestamp := t2, duration := 0, threadId := tid, phase := 'T',
            category := c, name := n, asyncId := id,
            arg_type := .STRING_CONST, arg_name := "step",
            arg_value := .str step },
          { timestamp := t3, duration := 0, threadId := tid, phase := 'F',
            category := c, name := n, asyncId := id, arg_type := .NONE,
            arg_name := "", arg_value := .unused },
    ?_, rfl, rfl, rfl, rfl, rfl, rfl, ?_, ?_, ?_, rfl, rfl, rfl, ?_⟩
  · simp [runCall, MTR_START, MTR_STEP, MTR_FINISH, decodeId,
      decodeArgValue, internal_mtr_raw_event, internal_mtr_raw_event_arg,
      hrun, h1, h2, h3, AsyncId.toNat]
  · simp [eventFields]
  · simp [eventFields]
  · simp [eventFields]
  · simp [eventFields, argPrim]

/-- Witness for C6 at the spec's scenario: id `0xDEADBEEF`, step
`"phase1"`. -/
theorem async_triple_semantics_witness :
    ∃ e1 e2 e3 : RawEvent,
      (runCall (MTR_START "c" "n" 0xDEADBEEF) initState 1 0).bind
        (fun s1 => (runCall (MTR_STEP "c" "n" 0xDEADBEEF "phase1") s1 2 0).bind
          (fun s2 => runCall (MTR_FINISH "c" "n" 0xDEADBEEF) s2 3 0)) =
        some { initState with
               count := initState.count + 1 + 1 + 1
               buffer := initState.buffer ++ [e1, e2, e3] } ∧
      e1.phase = 'S' ∧ e2.phase = 'T' ∧ e3.phase = 'F' ∧
      e1.asyncId = 0xDEADBEEF ∧ e2.asyncId = 0xDEADBEEF ∧
      e3.asyncId = 0xDEADBEEF ∧
      ("id", .prim (.str ("0x" ++ hex08 0xDEADBEEF))) ∈ eventFields e1 ∧
      ("id", .prim (.str ("0x" ++ hex08 0xDEADBEEF))) ∈ eventFields e2 ∧
      ("id", .prim (.str ("0x" ++ hex08 0xDEADBEEF))) ∈ eventFields e3 ∧
      e2.arg_type = .STRING_CONST ∧ e2.arg_name = "step" ∧
      e2.arg_value = .str "phase1" ∧
      ("args", .obj [("step", .str "phase1")]) ∈ eventFields e2 :=
  async_triple_semantics "c" "n" "phase1" 0xDEADBEEF initState 1 2 3 0 rfl
    (by norm_num [initState, BUFFER_SIZE])

/-- The hexadecimal id of the spec's async scenario renders as
`"0xdeadbeef"`. -/
theorem hex08_deadbeef : "0x" ++ hex08 0xDEADBEEF = "0xdeadbeef" := by
  decide

/-- C7: `MTR_META_THREAD_NAME(n)` is the single call
`raw_event_arg("", "thread_name", 'M', 0, STRING_CONST, "name", n)`,
appending exactly one metadata record whose serialized form has
`"ph":"M"` and `"args": (name n)` and no `"ts"` member at all. -/
theorem MTR_META_THREAD_NAME_semantics (nm : String) (s : MtrState)
    (now : ℚ) (tid : Nat) (hrun : s.running = true)
    (hcap : s.count < BUFFER_SIZE) :
    ∃ e : RawEvent,
      runCall (MTR_META_THREAD_NAME nm) s now tid =
        some { s with
               count := s.count + 1
               buffer := s.buffer ++ [e] } ∧
      e.phase = 'M' ∧ e.category = "" ∧ e.name = "thread_name" ∧
      e.arg_type = .STRING_CONST ∧ e.arg_name = "name" ∧
      e.arg_value = .str nm ∧
      ("ph", .prim (.str "M")) ∈ eventFields e ∧
      ("args", .obj [("name", .str nm)]) ∈ eventFields e ∧
      "ts" ∉ (eventFields e).map Prod.fst := by
  refine ⟨{ timestamp := now, duration := 0, threadId := tid, phase := 'M',
            category := "", name := "thread_name", asyncId := 0,
            arg_type := .STRING_CONST, arg_name := "name",
            arg_value := .str nm },
    ?_, rfl, rfl, rfl, rfl, rfl, rfl, ?_, ?_, ?_⟩
  · simp [runCall, MTR_META_THREAD_NAME, decodeId, decodeArgValue,
      internal_mtr_raw_event_arg, hrun, Nat.not_le.mpr hcap, AsyncId.toNat]
  · simp [eventFields]
    rfl
  · simp [eventFields, argPrim]
  · simp [eventFields]

/-- Witness for C7 at the spec's scenario: thread name `"worker"`. -/
theorem MTR_META_THREAD_NAME_semantics_witness :
    ∃ e : RawEvent,
      runCall (MTR_META_THREAD_NAME "worker") initState 1 0 =
        some { initState with
               count := initState.count + 1
               buffer := initState.buffer ++ [e] } ∧
      e.phase = 'M' ∧ e.category = "" ∧ e.name = "thread_name" ∧
      e.arg_type = .STRING_CONST ∧ e.arg_name = "name" ∧
      e.arg_value = .str "worker" ∧
      ("ph", .prim (.str "M")) ∈ eventFields e ∧
      ("args", .obj [("name", .str "worker")]) ∈ eventFields e ∧
      "ts" ∉ (eventFields e).map Prod.fst :=
  MTR_META_THREAD_NAME_semantics "worker" initState 1 0 rfl
    (by norm_num [initState, BUFFER_SIZE])
